import Mathlib

/-!
# Wildlife Detection System — verification of the motion analysis pipeline

Shallow embedding of the motion analysis and classification pipeline of
`src/components/wildlife-detection/WildlifeDetectionInterface.tsx`:
frame differencing (`analyzeFrame`), confidence scoring
(`calculateConfidence`), classification (`classifyMotion`), bounded
detection history and analytics aggregation (`handleDetection`,
`updateAnalytics`), and lifecycle (`cleanup`, `startFrameAnalysis`).

Modelling conventions:
* JavaScript numbers used for scores are modelled as rationals (`ℚ`);
  pixel values and accumulated magnitudes are naturals (`ℕ`).
* A frame is a width, a height, and the flat RGBA byte array
  (`imageData.data`), one `ℕ` per channel byte.
* The retained previous frame (`previousFrameRef`) stores only the byte
  array, exactly as the source keeps a bare `Uint8ClampedArray` with no
  dimension tag.
* In the sampling loop the source reads `previousFrameRef.current[i]`
  without a bounds check against the previous array.  In JavaScript an
  out-of-range typed-array read yields `undefined`, so the three-term sum
  becomes `NaN` and the comparison `NaN > 10` is false: such a sampled
  point is never counted.  The embedding renders this as the explicit
  condition `i + 2 < prev.length` on counting a point.
* `new Date().toISOString()` is an external input: the current instant is
  passed to `analyzeFrame` as a parameter `now`, in epoch milliseconds.
  `Date.getHours()` extracts the hour-of-day from that instant; the
  embedding fixes the timezone offset to zero, which is irrelevant to the
  bucket-update claims.
* A null `videoRef.current` and a zero `videoWidth` both take the early
  return in the source; both are modelled as `frame.width = 0`.  The
  canvas resize (source lines 62–65) only synchronizes the scratch canvas
  with the video dimensions before `getImageData` and holds no state the
  claims depend on, so it is not a separate model component.
-/

namespace Wildlife

/-- Motion categories returned by `classifyMotion`. -/
inductive Category where
  | LARGE_ANIMAL
  | MEDIUM_ANIMAL
  | SMALL_ANIMAL
  | AMBIENT_MOTION
deriving DecidableEq, Repr

/-- A detection event as built in `analyzeFrame` (source lines 105–110):
timestamp (epoch milliseconds), intensity, confidence, category. -/
structure Detection where
  timestamp : ℕ
  intensity : ℚ
  confidence : ℚ
  type : Category
deriving DecidableEq, Repr

/-- A captured video frame: `videoWidth`, `videoHeight`, and the flat
RGBA data array obtained from `getImageData` (4 bytes per pixel). -/
structure Frame where
  width : ℕ
  height : ℕ
  data : List ℕ
deriving DecidableEq, Repr

/-- `cameraConfig.minimumPixelDifference` (source line 44).  The fields
`sensitivity`, `samplingInterval` and `gridSize` of `cameraConfig` are
never read by the analysis code and are omitted. -/
def minimumPixelDifference : ℕ := 10

/-- The fixed sampling stride `skipFactor` (source line 81). -/
def skipFactor : ℕ := 8

/-- The raw motion signal accumulated by the sampling loop:
`totalMotion` and `motionPoints` (source lines 77–78). -/
structure MotionSignal where
  totalMotion : ℕ
  motionPoints : ℕ
deriving DecidableEq, Repr

/-- The sampled grid positions, in loop order: `y` from `0` in steps of
`skipFactor` while `y < height`, and for each `y`, `x` likewise
(source lines 85–86).  Pairs are `(x, y)`. -/
def sampledPositions (width height : ℕ) : List (ℕ × ℕ) :=
  ((List.range height).filter (fun y => y % skipFactor = 0)).flatMap
    (fun y => ((List.range width).filter (fun x => x % skipFactor = 0)).map
      (fun x => (x, y)))

/-- The three-channel sum of absolute differences at flat index `i`
(source lines 89–91). -/
def pixelDiff (data prev : List ℕ) (i : ℕ) : ℕ :=
  Nat.dist (data.getD i 0) (prev.getD i 0)
    + Nat.dist (data.getD (i + 1) 0) (prev.getD (i + 1) 0)
    + Nat.dist (data.getD (i + 2) 0) (prev.getD (i + 2) 0)

/-- One step of the sampling loop body (source lines 87–97) for a sampled
position `(x, y)`.  The flat index is `(y*width + x) * 4`; the source
requires `i >= 0 && i < data.length - 3` (the `i ≥ 0` half is vacuous over
`ℕ`, and `ℕ` subtraction agrees with the JavaScript comparison here), and
a point is accumulated only when the comparison `diff > 10` succeeds,
which additionally requires every read of the previous array to be in
range (an out-of-range read makes the sum `NaN`, failing the comparison). -/
def sampleStep (width : ℕ) (data prev : List ℕ) (sig : MotionSignal)
    (p : ℕ × ℕ) : MotionSignal :=
  let i := (p.2 * width + p.1) * 4
  if i < data.length - 3 then
    if i + 2 < prev.length ∧ pixelDiff data prev i > minimumPixelDifference then
      ⟨sig.totalMotion + pixelDiff data prev i, sig.motionPoints + 1⟩
    else sig
  else sig

/-- The full sampling loop (source lines 85–99): fold the loop body over
the sampled grid starting from `totalMotion = 0`, `motionPoints = 0`. -/
def computeMotion (width height : ℕ) (data prev : List ℕ) : MotionSignal :=
  (sampledPositions width height).foldl (sampleStep width data prev) ⟨0, 0⟩

/-- `Math.min(totalMotion / (motionPoints * 765), 1)` (source line 104). -/
def intensityOf (totalMotion motionPoints : ℕ) : ℚ :=
  min ((totalMotion : ℚ) / ((motionPoints : ℚ) * 765)) 1

/-- `calculateConfidence` (source lines 149–153). -/
def calculateConfidence (intensity : ℚ) (points : ℕ) : ℚ :=
  let intensityFactor := min (intensity * 2) 1
  let coverageFactor := min ((points : ℚ) / 1000) 1
  intensityFactor * 0.6 + coverageFactor * 0.4

/-- `classifyMotion` (source lines 155–160). -/
def classifyMotion (intensity : ℚ) (points : ℕ) : Category :=
  if intensity > 0.7 ∧ points > 500 then Category.LARGE_ANIMAL
  else if intensity > 0.4 ∧ points > 200 then Category.MEDIUM_ANIMAL
  else if intensity > 0.2 ∧ points > 50 then Category.SMALL_ANIMAL
  else Category.AMBIENT_MOTION

/-- The analytics state held in `analyticsData` (source lines 17–21):
`totalDetections`, `detectionsByType` (a JavaScript object mapping
category to count; an absent key reads as 0 via `|| 0`, modelled as a
total function with default 0), and `hourlyActivity` (length-24 array). -/
structure AnalyticsData where
  totalDetections : ℕ
  detectionsByType : Category → ℕ
  hourlyActivity : List ℕ

/-- The initial analytics state (source lines 17–21). -/
def initialAnalytics : AnalyticsData :=
  { totalDetections := 0
    detectionsByType := fun _ => 0
    hourlyActivity := List.replicate 24 0 }

/-- `new Date(t).getHours()` for an epoch-millisecond timestamp,
with the timezone offset fixed to zero (see module comment). -/
def getHours (timestampMs : ℕ) : ℕ :=
  timestampMs / 3600000 % 24

/-- `updateAnalytics` (source lines 175–190): increment the total, the
recorded category's count, and the hourly bucket of the detection's
timestamp. -/
def updateAnalytics (prev : AnalyticsData) (d : Detection) : AnalyticsData :=
  let hour := getHours d.timestamp
  { totalDetections := prev.totalDetections + 1
    detectionsByType := fun c =>
      if c = d.type then prev.detectionsByType c + 1 else prev.detectionsByType c
    hourlyActivity :=
      prev.hourlyActivity.set hour (prev.hourlyActivity.getD hour 0 + 1) }

/-- The history push in `handleDetection` (source lines 164–169):
`[...prev, entry].slice(-50)`, i.e. append then keep the last 50 entries.
The stored entry carries the detection's time, intensity, confidence and
type; the embedding stores the `Detection` itself. -/
def pushDetection (prev : List Detection) (d : Detection) : List Detection :=
  let l := prev ++ [d]
  l.drop (l.length - 50)

/-- The consumer-visible pipeline state: `detectionData` (the bounded
history) and `analyticsData`. -/
structure PipelineState where
  detectionData : List Detection
  analyticsData : AnalyticsData

/-- `handleDetection` (source lines 162–173): a detection is pushed into
the history and folded into the analytics iff its confidence is strictly
greater than 0.4; otherwise the state is untouched. -/
def handleDetection (s : PipelineState) (d : Detection) : PipelineState :=
  if d.confidence > 0.4 then
    { detectionData := pushDetection s.detectionData d
      analyticsData := updateAnalytics s.analyticsData d }
  else s

/-- The mutable cells of the component that the analysis lifecycle
touches: `previousFrameRef`, `processingRef`, `analysisIntervalRef`,
`streamRef` (presence only), `analysisContextRef` (presence only), and
the pipeline state. -/
structure SystemState where
  previousFrame : Option (List ℕ)
  processing : Bool
  hasInterval : Bool
  hasStream : Bool
  hasContext : Bool
  pipeline : PipelineState

/-- `analyzeFrame` (source lines 51–119) for one tick, given the current
video frame and the current instant `now` (epoch milliseconds).  Returns
the updated state and the detection constructed this cycle, if any (the
construction at lines 105–110; acceptance filtering happens inside
`handleDetection`).  Early return when no video / zero `videoWidth`, a
cycle already in flight, or no analysis context (line 52).  On warm-up
(no retained previous frame, lines 71–75) the current data is stored and
no signal is computed.  Otherwise the sampling loop runs against the
retained array, the retained copy is replaced by the current data
(line 101), and a detection is built iff `motionPoints > 0`. -/
def analyzeFrame (s : SystemState) (frame : Frame) (now : ℕ) :
    SystemState × Option Detection :=
  if frame.width = 0 ∨ s.processing = true ∨ s.hasContext = false then
    (s, none)
  else
    match s.previousFrame with
    | none =>
        ({ s with previousFrame := some frame.data, processing := false }, none)
    | some prev =>
        let sig := computeMotion frame.width frame.height frame.data prev
        let s1 : SystemState :=
          { s with previousFrame := some frame.data, processing := false }
        if sig.motionPoints > 0 then
          let intensity := intensityOf sig.totalMotion sig.motionPoints
          let d : Detection :=
            { timestamp := now
              intensity := intensity
              confidence := calculateConfidence intensity sig.motionPoints
              type := classifyMotion intensity sig.motionPoints }
          ({ s1 with pipeline := handleDetection s1.pipeline d }, some d)
        else (s1, none)

/-- `cleanup` (source lines 134–147): cancel the interval, stop and drop
the stream, null the retained previous frame, clear the in-flight flag. -/
def cleanup (s : SystemState) : SystemState :=
  { s with hasInterval := false
           hasStream := false
           previousFrame := none
           processing := false }

/-- `startFrameAnalysis` (source lines 121–132): clear any existing
interval, then install a fresh periodic interval.  Net state effect:
the interval is present. -/
def startFrameAnalysis (s : SystemState) : SystemState :=
  { s with hasInterval := true }

/-- Sum of the per-category counts over all four categories — the
"sum of all by_category values" of the analytics snapshot. -/
def sumByType (a : AnalyticsData) : ℕ :=
  a.detectionsByType Category.LARGE_ANIMAL
    + a.detectionsByType Category.MEDIUM_ANIMAL
    + a.detectionsByType Category.SMALL_ANIMAL
    + a.detectionsByType Category.AMBIENT_MOTION

/-- The exact condition under which the sampling loop counts a sampled
position `(x, y)`, read off `sampleStep`: the flat index passes the
bounds check against the current data, every read of the previous array
is in range (otherwise the JavaScript sum is `NaN` and the threshold test
fails), and the three-channel difference exceeds the minimum pixel
difference. -/
def countedPoint (width : ℕ) (data prev : List ℕ) (p : ℕ × ℕ) : Bool :=
  decide ((p.2 * width + p.1) * 4 < data.length - 3
    ∧ (p.2 * width + p.1) * 4 + 2 < prev.length
    ∧ minimumPixelDifference < pixelDiff data prev ((p.2 * width + p.1) * 4))

/-- A concrete 1×1 frame whose pixel is black (data `[0,0,0,255]`). -/
def frameSmall : Frame := ⟨1, 1, [0, 0, 0, 255]⟩

/-- A concrete 9×1 frame whose bytes are all 100 (data length 9·1·4). -/
def frameLarge : Frame := ⟨9, 1, List.replicate 36 100⟩

/-- A freshly mounted component: no retained frame, not processing, with
interval, stream and analysis context present, and empty history and
analytics. -/
def initialState : SystemState :=
  ⟨none, false, true, true, true, ⟨[], initialAnalytics⟩⟩

end Wildlife

namespace Wildlife

/-- **C2** — The category assigned by `classifyMotion` is the first match
of the strict-order tests: intensity > 0.7 and points > 500 give
LARGE_ANIMAL; failing that, intensity > 0.4 and points > 200 give
MEDIUM_ANIMAL; failing that, intensity > 0.2 and points > 50 give
SMALL_ANIMAL; otherwise AMBIENT_MOTION.  All comparisons are strict, so
the exact boundary (intensity = 0.7 with points = 500) does not qualify
as LARGE_ANIMAL (it classifies as MEDIUM_ANIMAL), and the assignment is a
pure function of the pair. -/
theorem classifyMotion_strict_first_match (i : ℚ) (p : ℕ) :
    (classifyMotion i p = Category.LARGE_ANIMAL ↔ i > 0.7 ∧ p > 500)
    ∧ (classifyMotion i p = Category.MEDIUM_ANIMAL ↔
        ¬(i > 0.7 ∧ p > 500) ∧ (i > 0.4 ∧ p > 200))
    ∧ (classifyMotion i p = Category.SMALL_ANIMAL ↔
        ¬(i > 0.7 ∧ p > 500) ∧ ¬(i > 0.4 ∧ p > 200) ∧ (i > 0.2 ∧ p > 50))
    ∧ (classifyMotion i p = Category.AMBIENT_MOTION ↔
        ¬(i > 0.7 ∧ p > 500) ∧ ¬(i > 0.4 ∧ p > 200) ∧ ¬(i > 0.2 ∧ p > 50))
    ∧ classifyMotion 0.7 500 = Category.MEDIUM_ANIMAL := by
  refine ⟨?_, ?_, ?_, ?_, by norm_num [classifyMotion]⟩ <;>
    unfold classifyMotion <;> split_ifs with h1 h2 h3 <;> simp_all

/-- **C3** — For a motion signal with non-negative `totalMotion` and
positive `motionPoints`, the classifier computes
`intensity = min(totalMotion / (motionPoints * 765), 1)` and
`confidence = min(intensity*2, 1)*0.6 + min(motionPoints/1000, 1)*0.4`,
and both values lie in `[0, 1]` for all such inputs, including
arbitrarily large magnitudes. -/
theorem confidence_intensity_unit_interval (tm mp : ℕ) (hmp : 0 < mp) :
    intensityOf tm mp = min ((tm : ℚ) / ((mp : ℚ) * 765)) 1
    ∧ calculateConfidence (intensityOf tm mp) mp
        = min (intensityOf tm mp * 2) 1 * 0.6 + min ((mp : ℚ) / 1000) 1 * 0.4
    ∧ 0 ≤ intensityOf tm mp ∧ intensityOf tm mp ≤ 1
    ∧ 0 ≤ calculateConfidence (intensityOf tm mp) mp
    ∧ calculateConfidence (intensityOf tm mp) mp ≤ 1 := by
  have hq : (0 : ℚ) ≤ (tm : ℚ) / ((mp : ℚ) * 765) := by positivity
  have hi0 : 0 ≤ intensityOf tm mp := le_min hq (by norm_num)
  have hi1 : intensityOf tm mp ≤ 1 := min_le_right _ _
  have h1 : (0 : ℚ) ≤ min (intensityOf tm mp * 2) 1 :=
    le_min (by linarith) (by norm_num)
  have h2 : (0 : ℚ) ≤ min ((mp : ℚ) / 1000) 1 :=
    le_min (by positivity) (by norm_num)
  have h3 : min (intensityOf tm mp * 2) 1 ≤ 1 := min_le_right _ _
  have h4 : min ((mp : ℚ) / 1000) 1 ≤ 1 := min_le_right _ _
  refine ⟨rfl, rfl, hi0, hi1, ?_, ?_⟩ <;> unfold calculateConfidence <;> nlinarith

/-- Witness for C3 at `totalMotion = 1000000`, `motionPoints = 2`. -/
theorem confidence_intensity_unit_interval_witness :
    (0 < 2)
    ∧ (0 ≤ intensityOf 1000000 2 ∧ intensityOf 1000000 2 ≤ 1
        ∧ 0 ≤ calculateConfidence (intensityOf 1000000 2) 2
        ∧ calculateConfidence (intensityOf 1000000 2) 2 ≤ 1) :=
  ⟨by norm_num,
    (confidence_intensity_unit_interval 1000000 2 (by norm_num)).2.2.1,
    (confidence_intensity_unit_interval 1000000 2 (by norm_num)).2.2.2.1,
    (confidence_intensity_unit_interval 1000000 2 (by norm_num)).2.2.2.2.1,
    (confidence_intensity_unit_interval 1000000 2 (by norm_num)).2.2.2.2.2⟩

/-- `pushDetection` in closed form: append, then drop down to the last
50 entries. -/
theorem pushDetection_eq_drop (l : List Detection) (d : Detection) :
    pushDetection l d = (l ++ [d]).drop (l.length + 1 - 50) := by
  simp [pushDetection]

/-- The key eviction step: pushing onto an already-truncated history
agrees with truncating the full appended sequence. -/
theorem pushDetection_drop_step (l : List Detection) (d : Detection) :
    pushDetection (l.drop (l.length - 50)) d
      = (l ++ [d]).drop (l.length + 1 - 50) := by
  rw [pushDetection_eq_drop]
  rcases le_or_lt l.length 49 with hle | hlt
  · have h0 : l.length - 50 = 0 := by omega
    have h1 : l.length + 1 - 50 = 0 := by omega
    have h2 : l.length - 50 + 1 - 50 = 0 := by omega
    simp [h0, h1, h2]
  · have hlen : (l.drop (l.length - 50)).length = 50 := by
      simp only [List.length_drop]; omega
    rw [List.length_drop]
    have h2 : l.length - (l.length - 50) + 1 - 50 = 1 := by omega
    rw [h2]
    have h3 : (1 : ℕ) ≤ (l.drop (l.length - 50)).length := by omega
    rw [List.drop_append_of_le_length (by omega : 1 ≤ (l.drop (l.length - 50)).length),
      List.drop_drop,
      List.drop_append_of_le_length (by omega : l.length + 1 - 50 ≤ l.length)]
    have h5 : l.length - 50 + 1 = l.length + 1 - 50 := by omega
    rw [h5]

/-- **C4** — Folding any sequence of pushes into an empty history yields
exactly the suffix of the pushed sequence of length at most 50: the
length never exceeds the capacity 50, and after pushing `50 + k` items
the `k` oldest are absent while the remaining items keep their original
relative order (FIFO eviction from the front). -/
theorem detectionHistory_bounded_fifo (items : List Detection) :
    List.foldl pushDetection [] items = items.drop (items.length - 50)
    ∧ (List.foldl pushDetection [] items).length ≤ 50 := by
  have main : List.foldl pushDetection [] items
      = items.drop (items.length - 50) := by
    induction items using List.reverseRecOn with
    | nil => simp
    | append_singleton l d ih =>
        rw [List.foldl_append, ih, List.foldl_cons, List.foldl_nil,
          pushDetection_drop_step]
        simp
  refine ⟨main, ?_⟩
  rw [main, List.length_drop]
  omega

/-- **C5** — A detection produced by a cycle is admitted into the history
and the analytics iff its confidence is strictly greater than 0.4; with
confidence at most 0.4 the pipeline state is completely unchanged. -/
theorem acceptance_threshold_iff (s : PipelineState) (d : Detection) :
    (d.confidence > 0.4 → handleDetection s d =
        { detectionData := pushDetection s.detectionData d
          analyticsData := updateAnalytics s.analyticsData d })
    ∧ (d.confidence ≤ 0.4 → handleDetection s d = s) := by
  constructor <;> intro h
  · rw [handleDetection, if_pos h]
  · rw [handleDetection, if_neg (not_lt.mpr h)]

/-- Witness for C5: a confidence-0.5 detection is admitted, a
confidence-0.3 detection leaves the state untouched. -/
theorem acceptance_threshold_iff_witness :
    handleDetection ⟨[], initialAnalytics⟩ ⟨0, 1/2, 1/2, Category.SMALL_ANIMAL⟩
      = { detectionData :=
            pushDetection [] ⟨0, 1/2, 1/2, Category.SMALL_ANIMAL⟩
          analyticsData :=
            updateAnalytics initialAnalytics ⟨0, 1/2, 1/2, Category.SMALL_ANIMAL⟩ }
    ∧ handleDetection ⟨[], initialAnalytics⟩ ⟨0, 1/2, 3/10, Category.SMALL_ANIMAL⟩
      = ⟨[], initialAnalytics⟩ :=
  ⟨(acceptance_threshold_iff ⟨[], initialAnalytics⟩
      ⟨0, 1/2, 1/2, Category.SMALL_ANIMAL⟩).1 (by norm_num),
   (acceptance_threshold_iff ⟨[], initialAnalytics⟩
      ⟨0, 1/2, 3/10, Category.SMALL_ANIMAL⟩).2 (by norm_num)⟩

/-- **C7** — If a previous computation is still marked in progress
(`processingRef` set), a call to `analyzeFrame` is a no-op returning no
detection: the retained frame, the history and the analytics are all
unchanged, and the tick is dropped rather than queued. -/
theorem reentrant_tick_noop (s : SystemState) (f : Frame) (now : ℕ)
    (h : s.processing = true) :
    analyzeFrame s f now = (s, none) := by
  rw [analyzeFrame, if_pos (Or.inr (Or.inl h))]

/-- Witness for C7 at a concrete busy state. -/
theorem reentrant_tick_noop_witness :
    (SystemState.mk (some [0, 0, 0, 0]) true true true true
        ⟨[], initialAnalytics⟩).processing = true
    ∧ analyzeFrame
        (SystemState.mk (some [0, 0, 0, 0]) true true true true
          ⟨[], initialAnalytics⟩) ⟨1, 1, [9, 9, 9, 9]⟩ 0
      = (SystemState.mk (some [0, 0, 0, 0]) true true true true
          ⟨[], initialAnalytics⟩, none) :=
  ⟨rfl, reentrant_tick_noop _ ⟨1, 1, [9, 9, 9, 9]⟩ 0 rfl⟩

/-- **C6** — After `cleanup` (stop) followed by `startFrameAnalysis`
(start), the next analysis cycle behaves as a first-ever cycle regardless
of prior retained state: it stores the current frame as the retained
copy, produces no detection, leaves the history/analytics untouched, and
ends with the in-progress flag clear. -/
theorem restart_first_cycle (s : SystemState) (f : Frame) (now : ℕ)
    (hw : f.width ≠ 0) (hc : s.hasContext = true) :
    (analyzeFrame (startFrameAnalysis (cleanup s)) f now).2 = none
    ∧ (analyzeFrame (startFrameAnalysis (cleanup s)) f now).1.previousFrame
        = some f.data
    ∧ (analyzeFrame (startFrameAnalysis (cleanup s)) f now).1.pipeline
        = s.pipeline
    ∧ (analyzeFrame (startFrameAnalysis (cleanup s)) f now).1.processing
        = false := by
  unfold analyzeFrame startFrameAnalysis cleanup
  simp [hw, hc]

/-- Witness for C6: a state that had a retained frame and pending work is
fully reset by stop/start, and the next cycle only stores the new frame. -/
theorem restart_first_cycle_witness :
    ((⟨1, 1, [5, 6, 7, 8]⟩ : Frame).width ≠ 0
      ∧ (SystemState.mk (some [1, 2, 3, 4]) false true true true
          ⟨[], initialAnalytics⟩).hasContext = true)
    ∧ (analyzeFrame (startFrameAnalysis (cleanup
        (SystemState.mk (some [1, 2, 3, 4]) false true true true
          ⟨[], initialAnalytics⟩))) ⟨1, 1, [5, 6, 7, 8]⟩ 0).2 = none
    ∧ (analyzeFrame (startFrameAnalysis (cleanup
        (SystemState.mk (some [1, 2, 3, 4]) false true true true
          ⟨[], initialAnalytics⟩))) ⟨1, 1, [5, 6, 7, 8]⟩ 0).1.previousFrame
        = some [5, 6, 7, 8] :=
  ⟨⟨by norm_num, rfl⟩,
   (restart_first_cycle
      (SystemState.mk (some [1, 2, 3, 4]) false true true true
        ⟨[], initialAnalytics⟩) ⟨1, 1, [5, 6, 7, 8]⟩ 0 (by norm_num) rfl).1,
   (restart_first_cycle
      (SystemState.mk (some [1, 2, 3, 4]) false true true true
        ⟨[], initialAnalytics⟩) ⟨1, 1, [5, 6, 7, 8]⟩ 0 (by norm_num) rfl).2.1⟩

/-- The running-total invariant of the aggregator: if the total equals
the sum of the per-category counts, one `updateAnalytics` step preserves
that equality, and hence so does any fold. -/
theorem foldl_updateAnalytics_total_inv (ds : List Detection)
    (a : AnalyticsData) (h : a.totalDetections = sumByType a) :
    (List.foldl updateAnalytics a ds).totalDetections
      = sumByType (List.foldl updateAnalytics a ds) := by
  induction ds generalizing a with
  | nil => exact h
  | cons d ds ih =>
      rw [List.foldl_cons]
      apply ih
      cases hd : d.type <;> simp [updateAnalytics, sumByType, hd] <;>
        unfold sumByType at h <;> omega

/-- **C8** — `updateAnalytics` (record) increments the total by 1 and the
recorded category's count by 1, leaving every other category count
unchanged, and after any sequence of records starting from the initial
analytics state the total equals the sum of all per-category counts. -/
theorem analytics_total_eq_sum_by_category (ds : List Detection)
    (a : AnalyticsData) (d : Detection) (c : Category) (hc : c ≠ d.type) :
    (updateAnalytics a d).totalDetections = a.totalDetections + 1
    ∧ (updateAnalytics a d).detectionsByType d.type
        = a.detectionsByType d.type + 1
    ∧ (updateAnalytics a d).detectionsByType c = a.detectionsByType c
    ∧ (List.foldl updateAnalytics initialAnalytics ds).totalDetections
        = sumByType (List.foldl updateAnalytics initialAnalytics ds) := by
  refine ⟨rfl, by simp [updateAnalytics], by simp [updateAnalytics, hc], ?_⟩
  exact foldl_updateAnalytics_total_inv ds initialAnalytics rfl

/-- Witness for C8 at one recorded detection, checking a distinct
category. -/
theorem analytics_total_eq_sum_by_category_witness :
    (Category.LARGE_ANIMAL ≠
        (Detection.mk 0 0 (1/2) Category.SMALL_ANIMAL).type)
    ∧ (updateAnalytics initialAnalytics
        ⟨0, 0, 1/2, Category.SMALL_ANIMAL⟩).totalDetections = 0 + 1
    ∧ (updateAnalytics initialAnalytics
        ⟨0, 0, 1/2, Category.SMALL_ANIMAL⟩).detectionsByType
          Category.LARGE_ANIMAL
        = initialAnalytics.detectionsByType Category.LARGE_ANIMAL
    ∧ (List.foldl updateAnalytics initialAnalytics
        [⟨0, 0, 1/2, Category.SMALL_ANIMAL⟩]).totalDetections
        = sumByType (List.foldl updateAnalytics initialAnalytics
            [⟨0, 0, 1/2, Category.SMALL_ANIMAL⟩]) :=
  ⟨by decide,
   (analytics_total_eq_sum_by_category [⟨0, 0, 1/2, Category.SMALL_ANIMAL⟩]
      initialAnalytics ⟨0, 0, 1/2, Category.SMALL_ANIMAL⟩
      Category.LARGE_ANIMAL (by decide)).1,
   (analytics_total_eq_sum_by_category [⟨0, 0, 1/2, Category.SMALL_ANIMAL⟩]
      initialAnalytics ⟨0, 0, 1/2, Category.SMALL_ANIMAL⟩
      Category.LARGE_ANIMAL (by decide)).2.2.1,
   (analytics_total_eq_sum_by_category [⟨0, 0, 1/2, Category.SMALL_ANIMAL⟩]
      initialAnalytics ⟨0, 0, 1/2, Category.SMALL_ANIMAL⟩
      Category.LARGE_ANIMAL (by decide)).2.2.2⟩

/-- **C9** — A record increments exactly the hourly bucket indexed by the
hour-of-day of the detection's timestamp, leaving every other bucket
unchanged; in particular five consecutive recorded detections within hour
14 yield bucket 14 equal to 5 with all other buckets still zero. -/
theorem hourly_bucket_increment (a : AnalyticsData) (d : Detection)
    (h : ℕ) (hlen : a.hourlyActivity.length = 24)
    (hne : h ≠ getHours d.timestamp) :
    (updateAnalytics a d).hourlyActivity.getD (getHours d.timestamp) 0
        = a.hourlyActivity.getD (getHours d.timestamp) 0 + 1
    ∧ (updateAnalytics a d).hourlyActivity.getD h 0
        = a.hourlyActivity.getD h 0
    ∧ (List.foldl updateAnalytics initialAnalytics
          (List.replicate 5
            ⟨50400000, 1/2, 1/2, Category.SMALL_ANIMAL⟩)).hourlyActivity
        = (List.replicate 24 0).set 14 5 := by
  have hhr : getHours d.timestamp < a.hourlyActivity.length := by
    rw [hlen]; exact Nat.mod_lt _ (by norm_num)
  refine ⟨?_, ?_, by decide⟩
  · simp [updateAnalytics, List.getD_eq_getElem?_getD,
      List.getElem?_set_self hhr]
  · simp [updateAnalytics, List.getD_eq_getElem?_getD,
      List.getElem?_set_ne (Ne.symm hne)]

/-- Witness for C9 at the initial analytics state and a timestamp inside
hour 14, checking bucket 0 as the untouched one. -/
theorem hourly_bucket_increment_witness :
    (initialAnalytics.hourlyActivity.length = 24
      ∧ (0 : ℕ) ≠
          getHours (Detection.mk 50400000 (1/2) (1/2)
            Category.SMALL_ANIMAL).timestamp)
    ∧ (updateAnalytics initialAnalytics
        ⟨50400000, 1/2, 1/2, Category.SMALL_ANIMAL⟩).hourlyActivity.getD
          (getHours (Detection.mk 50400000 (1/2) (1/2)
            Category.SMALL_ANIMAL).timestamp) 0
        = initialAnalytics.hourlyActivity.getD
            (getHours (Detection.mk 50400000 (1/2) (1/2)
              Category.SMALL_ANIMAL).timestamp) 0 + 1
    ∧ (updateAnalytics initialAnalytics
        ⟨50400000, 1/2, 1/2, Category.SMALL_ANIMAL⟩).hourlyActivity.getD 0 0
        = initialAnalytics.hourlyActivity.getD 0 0 :=
  ⟨⟨by decide, by decide⟩,
   (hourly_bucket_increment initialAnalytics
      ⟨50400000, 1/2, 1/2, Category.SMALL_ANIMAL⟩ 0 (by decide) (by decide)).1,
   (hourly_bucket_increment initialAnalytics
      ⟨50400000, 1/2, 1/2, Category.SMALL_ANIMAL⟩ 0 (by decide)
      (by decide)).2.1⟩

/-- Each counted point contributes a magnitude strictly above the
threshold 10, so the accumulated total is at least 11 per counted point:
the sampling fold preserves `11 * motionPoints ≤ totalMotion`. -/
theorem foldl_sampleStep_magnitude (width : ℕ) (data prev : List ℕ)
    (ps : List (ℕ × ℕ)) (sig : MotionSignal)
    (h : 11 * sig.motionPoints ≤ sig.totalMotion) :
    11 * (ps.foldl (sampleStep width data prev) sig).motionPoints
      ≤ (ps.foldl (sampleStep width data prev) sig).totalMotion := by
  induction ps generalizing sig with
  | nil => exact h
  | cons p ps ih =>
      rw [List.foldl_cons]
      apply ih
      simp only [sampleStep]
      split_ifs with h1 h2
      · obtain ⟨hr, hd⟩ := h2
        show 11 * (sig.motionPoints + 1)
          ≤ sig.totalMotion + pixelDiff data prev ((p.2 * width + p.1) * 4)
        have h11 : 11 ≤ pixelDiff data prev ((p.2 * width + p.1) * 4) := by
          unfold minimumPixelDifference at hd; omega
        omega
      · exact h
      · exact h

/-- **C10** — Whenever the sampling loop counts at least one motion
point, every counted point's three-channel difference exceeded the
minimum pixel difference 10, so the total magnitude is at least 11 times
the point count, and the resulting intensity is at least 11/765, in
particular strictly positive. -/
theorem detection_intensity_lower_bound (w h : ℕ) (data prev : List ℕ)
    (hpos : 0 < (computeMotion w h data prev).motionPoints) :
    11 * (computeMotion w h data prev).motionPoints
      ≤ (computeMotion w h data prev).totalMotion
    ∧ (11 : ℚ) / 765 ≤ intensityOf (computeMotion w h data prev).totalMotion
        (computeMotion w h data prev).motionPoints
    ∧ 0 < intensityOf (computeMotion w h data prev).totalMotion
        (computeMotion w h data prev).motionPoints := by
  have hmag : 11 * (computeMotion w h data prev).motionPoints
      ≤ (computeMotion w h data prev).totalMotion :=
    foldl_sampleStep_magnitude w data prev (sampledPositions w h) ⟨0, 0⟩
      (by simp)
  have hlow : (11 : ℚ) / 765 ≤ intensityOf
      (computeMotion w h data prev).totalMotion
      (computeMotion w h data prev).motionPoints := by
    have hmpq : (0 : ℚ) < ((computeMotion w h data prev).motionPoints : ℚ) := by
      exact_mod_cast hpos
    have hcast : (11 : ℚ) * ((computeMotion w h data prev).motionPoints : ℚ)
        ≤ ((computeMotion w h data prev).totalMotion : ℚ) := by
      exact_mod_cast hmag
    have h765 : (0 : ℚ) <
        ((computeMotion w h data prev).motionPoints : ℚ) * 765 := by
      positivity
    unfold intensityOf
    apply le_min
    · rw [div_le_div_iff₀ (by norm_num) h765]
      nlinarith
    · norm_num
  exact ⟨hmag, hlow, lt_of_lt_of_le (by norm_num) hlow⟩

/-- Witness for C10: a 1×1 frame pair with per-channel delta 100 counts
one point of magnitude 300. -/
theorem detection_intensity_lower_bound_witness :
    0 < (computeMotion 1 1 [100, 100, 100, 255] [0, 0, 0, 255]).motionPoints
    ∧ (11 : ℚ) / 765 ≤ intensityOf
        (computeMotion 1 1 [100, 100, 100, 255] [0, 0, 0, 255]).totalMotion
        (computeMotion 1 1 [100, 100, 100, 255] [0, 0, 0, 255]).motionPoints :=
  ⟨by decide,
   (detection_intensity_lower_bound 1 1 [100, 100, 100, 255] [0, 0, 0, 255]
      (by decide)).2.1⟩

/-- Reduction of a full `analyzeFrame` cycle when the guard passes and a
previous frame is retained, regardless of any dimension relationship
between the retained data and the current frame. -/
theorem analyzeFrame_run (s : SystemState) (f : Frame) (now : ℕ)
    (prev : List ℕ) (hw : f.width ≠ 0) (hp : s.processing = false)
    (hc : s.hasContext = true) (hprev : s.previousFrame = some prev) :
    analyzeFrame s f now =
      (let sig := computeMotion f.width f.height f.data prev
       let s1 : SystemState :=
         { s with previousFrame := some f.data, processing := false }
       if sig.motionPoints > 0 then
         let intensity := intensityOf sig.totalMotion sig.motionPoints
         let d : Detection :=
           { timestamp := now
             intensity := intensity
             confidence := calculateConfidence intensity sig.motionPoints
             type := classifyMotion intensity sig.motionPoints }
         ({ s1 with pipeline := handleDetection s1.pipeline d }, some d)
       else (s1, none)) := by
  rw [analyzeFrame, if_neg (by simp [hw, hp, hc]), hprev]

/-- `countedPoint` unfolded to its proposition. -/
theorem countedPoint_iff (width : ℕ) (data prev : List ℕ) (p : ℕ × ℕ) :
    countedPoint width data prev p = true ↔
      ((p.2 * width + p.1) * 4 < data.length - 3
        ∧ ((p.2 * width + p.1) * 4 + 2 < prev.length
            ∧ pixelDiff data prev ((p.2 * width + p.1) * 4)
                > minimumPixelDifference)) := by
  simp [countedPoint, and_assoc]

/-- The point count of the sampling loop counts exactly the sampled
positions satisfying `countedPoint`. -/
theorem computeMotion_points_filter (width height : ℕ)
    (data prev : List ℕ) :
    (computeMotion width height data prev).motionPoints
      = ((sampledPositions width height).filter
          (countedPoint width data prev)).length := by
  have h : ∀ (ps : List (ℕ × ℕ)) (sig : MotionSignal),
      (ps.foldl (sampleStep width data prev) sig).motionPoints
        = sig.motionPoints
          + (ps.filter (countedPoint width data prev)).length := by
    intro ps
    induction ps with
    | nil => intro sig; simp
    | cons p ps ih =>
        intro sig
        rw [List.foldl_cons, ih, List.filter_cons]
        simp only [sampleStep]
        by_cases h1 : (p.2 * width + p.1) * 4 < data.length - 3
        · by_cases h2 : (p.2 * width + p.1) * 4 + 2 < prev.length
              ∧ pixelDiff data prev ((p.2 * width + p.1) * 4)
                  > minimumPixelDifference
          · rw [if_pos h1, if_pos h2,
              if_pos ((countedPoint_iff width data prev p).mpr ⟨h1, h2⟩)]
            simp only [List.length_cons]
            omega
          · rw [if_pos h1, if_neg h2, if_neg (fun hcp =>
              h2 ((countedPoint_iff width data prev p).mp hcp).2)]
        · rw [if_neg h1, if_neg (fun hcp =>
            h1 ((countedPoint_iff width data prev p).mp hcp).1)]
  rw [computeMotion, h (sampledPositions width height) ⟨0, 0⟩]
  simp

/-- **C1** (counterexample) — A dimension change between cycles does not
reset the retained frame nor force a motion-free cycle: after warming up
on a 1×1 black frame, a 9×1 all-100 frame is compared against the stale
1×1 byte array; the sampled position whose index falls inside the stale
array is counted, a detection is produced, and it is even accepted into
the history. -/
theorem dimension_mismatch_reports_motion :
    frameSmall.width ≠ frameLarge.width
    ∧ (analyzeFrame initialState frameSmall 0).1.previousFrame
        = some frameSmall.data
    ∧ (computeMotion frameLarge.width frameLarge.height frameLarge.data
        frameSmall.data).motionPoints = 1
    ∧ (analyzeFrame (analyzeFrame initialState frameSmall 0).1
        frameLarge 1000).2 ≠ none
    ∧ (analyzeFrame (analyzeFrame initialState frameSmall 0).1
        frameLarge 1000).1.pipeline.detectionData ≠ [] := by
  refine ⟨by decide, by decide, by decide, by decide, ?_⟩
  have hrun := analyzeFrame_run (analyzeFrame initialState frameSmall 0).1
    frameLarge 1000 frameSmall.data (by decide) (by decide) (by decide)
    (by decide)
  rw [hrun]
  have hsig : computeMotion frameLarge.width frameLarge.height
      frameLarge.data frameSmall.data = ⟨300, 1⟩ := by decide
  simp only [hsig]
  have hconf : (0.4 : ℚ) < calculateConfidence (intensityOf 300 1) 1 := by
    norm_num [calculateConfidence, intensityOf, min_def]
  simp [handleDetection, pushDetection, hconf]
  omega

/-- **C1** (amended) — On every completed cycle with a retained previous
frame — dimension mismatch included — the engine performs no reset and
surfaces no error: it replaces the retained copy with the current frame's
data, produces a detection exactly when the motion-point count is
nonzero, and counts a sampled position iff its flat index passes the
current-data bounds check, all three channel reads lie inside the
(possibly differently-sized) retained array, and the channel difference
exceeds 10.  Sampled positions beyond the stale array's extent therefore
report no motion, but positions inside it are compared against stale
pixels, so a mismatch cycle can report motion. -/
theorem analyzeFrame_no_dimension_reset (s : SystemState) (f : Frame)
    (now : ℕ) (prev : List ℕ) (hw : f.width ≠ 0)
    (hp : s.processing = false) (hc : s.hasContext = true)
    (hprev : s.previousFrame = some prev) :
    (analyzeFrame s f now).1.previousFrame = some f.data
    ∧ ((analyzeFrame s f now).2 = none ↔
        (computeMotion f.width f.height f.data prev).motionPoints = 0)
    ∧ (computeMotion f.width f.height f.data prev).motionPoints
        = ((sampledPositions f.width f.height).filter
            (countedPoint f.width f.data prev)).length := by
  have hred := analyzeFrame_run s f now prev hw hp hc hprev
  refine ⟨?_, ?_, computeMotion_points_filter f.width f.height f.data prev⟩
  · rw [hred]
    by_cases hmp :
        0 < (computeMotion f.width f.height f.data prev).motionPoints <;>
      simp [hmp]
  · rw [hred]
    by_cases hmp :
        0 < (computeMotion f.width f.height f.data prev).motionPoints
    · simp [hmp, Nat.pos_iff_ne_zero.mp hmp]
    · simp [hmp, Nat.eq_zero_of_not_pos hmp]

/-- Witness for the amended C1 at the concrete dimension-mismatch
scenario of the counterexample. -/
theorem analyzeFrame_no_dimension_reset_witness :
    (analyzeFrame (analyzeFrame initialState frameSmall 0).1
        frameLarge 1000).1.previousFrame = some frameLarge.data
    ∧ ((analyzeFrame (analyzeFrame initialState frameSmall 0).1
          frameLarge 1000).2 = none ↔
        (computeMotion frameLarge.width frameLarge.height frameLarge.data
          frameSmall.data).motionPoints = 0) :=
  ⟨(analyzeFrame_no_dimension_reset
      (analyzeFrame initialState frameSmall 0).1 frameLarge 1000
      frameSmall.data (by decide) (by decide) (by decide) (by decide)).1,
   (analyzeFrame_no_dimension_reset
      (analyzeFrame initialState frameSmall 0).1 frameLarge 1000
      frameSmall.data (by decide) (by decide) (by decide) (by decide)).2.1⟩

end Wildlife
